import Mathlib

/-
Shallow embedding of src/file_modem.c (gfcwfzkm/file_modem), receiver side.

Machine integers are modelled as Nat with explicit reductions modulo
2^8, 2^16 or 2^32 where the C code truncates.  The byte transport
(_recByte / _sendByte / _flushRx callbacks) is modelled as a list of
receive events (none = the call timed out, some b = the call delivered
byte b) plus an output trace of send/flush actions.  The fatfs backing
store (f_write) is modelled by a remaining-capacity counter: a write of
n bytes stores min n capacity bytes, which is exactly the "short write
when the disk is full" behaviour the code checks for.

The preprocessor flag XMODEM_NON_STANDARD of file_modem.c (it guards
the two ASCII abort markers, and, through C switch fall-through, whether
the CAN byte reaches the PCK_CANCEL return at all) is modelled as the
Boolean parameter nonStandard.
-/

set_option maxRecDepth 40000

namespace FileModem

/-- Control byte SOH (0x01): start of a 128 byte packet (file_modem.c line 21). -/
def SOH : ℕ := 0x01

/-- Control byte STX (0x02): start of a 1024 byte packet. -/
def STX : ℕ := 0x02

/-- Control byte EOT (0x04): end of transmission. -/
def EOT : ℕ := 0x04

/-- Control byte ACK (0x06): received data okay. -/
def ACK : ℕ := 0x06

/-- Control byte NAK (0x15): initiate checksum transmission or report corrupted data. -/
def NAK : ℕ := 0x15

/-- Control byte CAN (0x18): abort by the sender. -/
def CAN : ℕ := 0x18

/-- Control byte 0x43, ASCII C: initiate CRC-16 transmission. -/
def CRC16 : ℕ := 0x43

/-- Non-standard abort marker 0x41, ASCII A (guarded by XMODEM_NON_STANDARD). -/
def ABORT1 : ℕ := 0x41

/-- Non-standard abort marker 0x61, ASCII a (guarded by XMODEM_NON_STANDARD). -/
def ABORT2 : ℕ := 0x61

/-- PCK_SIZ (128): payload size of a normal packet. -/
def PCK_SIZ : ℕ := 128

/-- PCK_1K (1024): payload size of a 1k-XMODEM packet. -/
def PCK_1K : ℕ := 1024

/-- MAX_ERR (10): amount of retries before the receiver gives up. -/
def MAX_ERR : ℕ := 10

/-- SRT_TRY (5): amount of retries to initiate a CRC transmission, followed by
retries of checksum transmission, before the receiver gives up. -/
def SRT_TRY : ℕ := 5

/-- Result of _receivePacket, enum packageResult of file_modem.c line 43. -/
inductive packageResult where
  | PCK_128_RECV
  | PCK_1K_RECV
  | PCK_EOT
  | PCK_TIMEOUT
  | PCK_INVALID
  | PCK_CANCEL
deriving DecidableEq

/-- One round of the inner bit loop of _crc16 (file_modem.c lines 60-70):
shift the 16 bit register left and XOR with the polynomial 0x1021 when the
vacated high bit was set. -/
def crc16ShiftBit (crc : ℕ) : ℕ :=
  if crc &&& 0x8000 ≠ 0 then ((crc <<< 1) ^^^ 0x1021) % 65536
  else (crc <<< 1) % 65536

/-- One iteration of the outer byte loop of _crc16 (file_modem.c lines 56-71):
XOR the byte into the high byte of the register, then 8 bit rounds. -/
def crc16Byte (crc b : ℕ) : ℕ :=
  crc16ShiftBit^[8] ((crc ^^^ (b <<< 8)) % 65536)

/-- The function _crc16 of file_modem.c lines 51-73: CRC over the bytes of the
buffer, initial value 0.  The C count argument is the length of the list. -/
def _crc16 (buf : List ℕ) : ℕ := buf.foldl crc16Byte 0

/-- One iteration of the checksum loop of _checkPacket (file_modem.c line 99):
wrapping 8 bit addition into the accumulator. -/
def checksumByte (acc b : ℕ) : ℕ := (acc + b) % 256

/-- The additive 8 bit checksum computed by the else branch of _checkPacket
(file_modem.c lines 94-100). -/
def checksum8 (buf : List ℕ) : ℕ := buf.foldl checksumByte 0

/-- The function _checkPacket of file_modem.c lines 84-104.  The C buffer
pointer plus count argument is modelled as the list of the count bytes to be
checked.  Returns 1 if the check failed, 0 if it was successful. -/
def _checkPacket (use_crc : Bool) (crc_checksum : ℕ) (buf : List ℕ) : ℕ :=
  if use_crc then
    if _crc16 buf ≠ crc_checksum then 1 else 0
  else
    if checksum8 buf ≠ crc_checksum % 256 then 1 else 0

/-- A receive-event stream: each _recByte call consumes one event; none means
the call timed out, some b means byte b arrived.  An exhausted stream models a
peer that never replies (every further call times out). -/
abbrev RxStream := List (Option ℕ)

/-- The _recByte callback: pop one event off the stream.  The delivered byte
is stored into a uint8_t by the callback, hence the reduction modulo 256. -/
def recByte : RxStream → Option ℕ × RxStream
  | [] => (none, [])
  | e :: rest => (e.map (fun b => b % 256), rest)

/-- The payload loop of _receivePacket (file_modem.c lines 175-179): read
count bytes, storing them into the buffer at pos, pos+1, ...; a timeout
aborts immediately, leaving the bytes stored so far in place. -/
def readInto : RxStream → List ℕ → ℕ → ℕ → Bool × RxStream × List ℕ
  | input, buf, _, 0 => (true, input, buf)
  | input, buf, pos, c + 1 =>
    match recByte input with
    | (none, rest) => (false, rest, buf)
    | (some b, rest) => readInto rest (buf.set pos b) (pos + 1) c

/-- The trailer read of _receivePacket (file_modem.c lines 181-193): two bytes
assembled big-endian in CRC mode, one byte in checksum mode; none on timeout. -/
def readTrailer (useCRC : Bool) (input : RxStream) : Option ℕ × RxStream :=
  if useCRC then
    match recByte input with
    | (none, r) => (none, r)
    | (some hi, r) =>
      match recByte r with
      | (none, r2) => (none, r2)
      | (some lo, r2) => (some ((((hi <<< 8) % 65536) ||| lo) % 65536), r2)
  else
    match recByte input with
    | (none, r) => (none, r)
    | (some b, r) => (some b, r)

/-- Body of _receivePacket after the first-byte switch chose a payload size
(file_modem.c lines 168-206): sequence-byte pair, payload, trailer, then the
sequence and integrity checks.  The complement assignment
u8_pckNum[1] = ~u8_pckNum[1] on a uint8_t equals XOR with 0xFF. -/
def readBody (input : RxStream) (buf : List ℕ) (expPacketNum : ℕ)
    (useCRC : Bool) (pckSiz : ℕ) : packageResult × RxStream × List ℕ :=
  match recByte input with
  | (none, r) => (.PCK_TIMEOUT, r, buf)
  | (some p0, r) =>
  match recByte r with
  | (none, r1) => (.PCK_TIMEOUT, r1, buf)
  | (some p1, r1) =>
  match readInto r1 buf 0 pckSiz with
  | (false, r2, buf2) => (.PCK_TIMEOUT, r2, buf2)
  | (true, r2, buf2) =>
  match readTrailer useCRC r2 with
  | (none, r3) => (.PCK_TIMEOUT, r3, buf2)
  | (some recvCRC, r3) =>
    if p0 ≠ (p1 ^^^ 0xFF) then (.PCK_INVALID, r3, buf2)
    else if p0 ≠ expPacketNum then (.PCK_INVALID, r3, buf2)
    else if _checkPacket useCRC recvCRC (buf2.take pckSiz) ≠ 0 then
      (.PCK_INVALID, r3, buf2)
    else if pckSiz = PCK_SIZ then (.PCK_128_RECV, r3, buf2)
    else (.PCK_1K_RECV, r3, buf2)

/-- The function _receivePacket of file_modem.c lines 138-207.  nonStandard
models the XMODEM_NON_STANDARD preprocessor flag: when it is off, the
case CAN label falls through to the default label (the return PCK_CANCEL
statement sits inside the ifdef), so CAN is then classified PCK_INVALID. -/
def _receivePacket (nonStandard : Bool) (input : RxStream) (buf : List ℕ)
    (expPacketNum : ℕ) (useCRC : Bool) : packageResult × RxStream × List ℕ :=
  match recByte input with
  | (none, rest) => (.PCK_TIMEOUT, rest, buf)
  | (some ch, rest) =>
    if ch = SOH then readBody rest buf expPacketNum useCRC PCK_SIZ
    else if ch = STX then readBody rest buf expPacketNum useCRC PCK_1K
    else if ch = EOT then (.PCK_EOT, rest, buf)
    else if nonStandard ∧ (ch = CAN ∨ ch = ABORT1 ∨ ch = ABORT2) then
      (.PCK_CANCEL, rest, buf)
    else (.PCK_INVALID, rest, buf)

/-- One observable action of the transfer loop on the transport:
a byte handed to _sendByte, or a call of _flushRx. -/
inductive Action where
  | send (b : ℕ)
  | flush
deriving DecidableEq

/-- The bytes handed to _sendByte, in order, extracted from an action trace. -/
def sentBytes (tr : List Action) : List ℕ :=
  tr.filterMap fun a => match a with | .send b => some b | .flush => none

/-- The local state of xmodem_receive (file_modem.c lines 335-349) together
with the modelled environment: remaining receive events, the static scratch
buffer u8a_workbuf, the bytes persisted by f_write, the remaining backing
store capacity, and the trace of send/flush actions. -/
structure LoopState where
  packetCounter : ℕ
  failedAttempts : ℕ
  useCRC : Bool
  initialTransmission : Bool
  totalBytesWritten : ℕ
  input : RxStream
  buf : List ℕ
  disk : List ℕ
  diskFree : ℕ
  trace : List Action
deriving DecidableEq

/-- Outcome of one iteration of the main receive loop: either the function
returns (with the numeric result of the C function and the final value left
in the caller variable that p_maxsize points to), or the loop continues. -/
inductive StepOut where
  | exit (result : ℕ) (reportedMaxsize : ℕ) (s : LoopState)
  | next (s : LoopState)
deriving DecidableEq

/-- The loop state carried by a step outcome. -/
def StepOut.state : StepOut → LoopState
  | .exit _ _ s => s
  | .next s => s

/-- The numeric result of a step outcome, when the step exits. -/
def StepOut.code : StepOut → Option ℕ
  | .exit r _ _ => some r
  | .next _ => none

/-- The accepted-packet branch of the switch in xmodem_receive
(file_modem.c lines 376-417), shared by the PCK_128_RECV and PCK_1K_RECV
cases; bytesReceived is 128 or 1024 accordingly.  f_write stores
min bytesReceived diskFree bytes; a short write returns 5 at once
(without touching *p_maxsize, which keeps its caller-supplied value);
then the total is bumped (uint32_t) and checked against *p_maxsize,
returning 6 at once on reaching it (again leaving *p_maxsize unchanged);
otherwise ACK is sent and the loop continues. -/
def acceptPacket (maxsize bytesReceived : ℕ) (s : LoopState) : StepOut :=
  let s1 : LoopState :=
    { s with packetCounter := (s.packetCounter + 1) % 256,
             failedAttempts := 0, initialTransmission := false }
  let written := min bytesReceived s1.diskFree
  let s2 : LoopState :=
    { s1 with disk := s1.disk ++ s1.buf.take written,
              diskFree := s1.diskFree - written }
  if written < bytesReceived then .exit 5 maxsize s2
  else
    let s3 : LoopState :=
      { s2 with totalBytesWritten :=
                  (s2.totalBytesWritten + bytesReceived) % 4294967296 }
    if maxsize ≤ s3.totalBytesWritten then .exit 6 maxsize s3
    else .next { s3 with trace := s3.trace ++ [.send ACK] }

/-- The PCK_TIMEOUT / PCK_INVALID branch of the switch in xmodem_receive
(file_modem.c lines 424-456): flush, then either the negotiation fallback
logic (while initialTransmission holds; note it sends nothing itself, the
probe is sent at the top of the loop) or the steady-state retry logic,
which always sends NAK, also on the exit at MAX_ERR. -/
def failPacket (s : LoopState) : StepOut :=
  let s1 : LoopState := { s with trace := s.trace ++ [.flush] }
  if s1.initialTransmission then
    let f := (s1.failedAttempts + 1) % 256
    if f = SRT_TRY ∧ s1.useCRC = true then
      .next { s1 with useCRC := false, failedAttempts := 0 }
    else if f = SRT_TRY ∧ s1.useCRC = false then
      .exit 1 s1.totalBytesWritten { s1 with failedAttempts := f }
    else .next { s1 with failedAttempts := f }
  else
    let f := (s1.failedAttempts + 1) % 256
    let s2 : LoopState :=
      { s1 with failedAttempts := f, trace := s1.trace ++ [.send NAK] }
    if MAX_ERR ≤ f then .exit 2 s2.totalBytesWritten s2
    else .next s2

/-- The switch statement of xmodem_receive (file_modem.c lines 374-461),
dispatching on the _receivePacket result.  The exit codes already include
the final decrement of excecuteLoop (the C does return --excecuteLoop),
so: 0 completed, 1 negotiation exhausted, 2 retries exhausted,
3 aborted by peer; the direct returns 5 (storage exhausted) and
6 (size limit reached) are not decremented in the C code. -/
def processResult (maxsize : ℕ) (res : packageResult) (s : LoopState) : StepOut :=
  match res with
  | .PCK_128_RECV => acceptPacket maxsize PCK_SIZ s
  | .PCK_1K_RECV => acceptPacket maxsize PCK_1K s
  | .PCK_EOT =>
    let s1 : LoopState :=
      { s with trace := s.trace ++ [.send ACK], failedAttempts := 0 }
    .exit 0 s1.totalBytesWritten s1
  | .PCK_TIMEOUT => failPacket s
  | .PCK_INVALID => failPacket s
  | .PCK_CANCEL =>
    let s1 : LoopState := { s with trace := s.trace ++ [.flush] }
    .exit 3 s1.totalBytesWritten s1

/-- One iteration of the main receive loop of xmodem_receive
(file_modem.c lines 355-461): while initialTransmission holds, first send
the probe byte (CRC16 when useCRC, else NAK), then call _receivePacket and
dispatch on its result. -/
def runStep (nonStandard : Bool) (maxsize : ℕ) (s : LoopState) : StepOut :=
  let s1 : LoopState :=
    if s.initialTransmission then
      { s with trace := s.trace ++ [.send (if s.useCRC then CRC16 else NAK)] }
    else s
  let rp := _receivePacket nonStandard s1.input s1.buf s1.packetCounter s1.useCRC
  processResult maxsize rp.1 { s1 with input := rp.2.1, buf := rp.2.2 }

/-- The do-while loop of xmodem_receive, driven by a fuel counter; none means
the fuel ran out before the loop terminated. -/
def xmodemLoop (nonStandard : Bool) (maxsize : ℕ) :
    ℕ → LoopState → Option (ℕ × ℕ × LoopState)
  | 0, _ => none
  | fuel + 1, s =>
    match runStep nonStandard maxsize s with
    | .exit r m s1 => some (r, m, s1)
    | .next s1 => xmodemLoop nonStandard maxsize fuel s1

/-- The initial state of xmodem_receive (file_modem.c lines 335-352):
packet counter 1, no failures, useCRC = 0 (as set on line 339),
initial transmission in progress, nothing written, and the entry flush of
the receive buffer already recorded in the trace. -/
def initState (input : RxStream) (buf : List ℕ) (diskFree : ℕ) : LoopState :=
  { packetCounter := 1, failedAttempts := 0, useCRC := false,
    initialTransmission := true, totalBytesWritten := 0, input := input,
    buf := buf, disk := [], diskFree := diskFree, trace := [.flush] }

/-- The function xmodem_receive of file_modem.c lines 333-473.  Takes the
modelled environment (receive events, initial scratch buffer contents,
backing store capacity) and the caller-supplied *p_maxsize value; returns
the numeric result, the final value of the caller maxsize variable, and
the final state (trace, persisted bytes, buffer). -/
def xmodem_receive (nonStandard : Bool) (fuel : ℕ) (input : RxStream)
    (buf : List ℕ) (diskFree maxsize : ℕ) : Option (ℕ × ℕ × LoopState) :=
  xmodemLoop nonStandard maxsize fuel (initState input buf diskFree)

/-- Initial contents of the 1024 byte scratch buffer used in the concrete
scenario runs. -/
def buf0 : List ℕ := List.replicate 1024 0

/-- A valid checksum-mode frame: sequence 1 (complement byte 0xFE), 128 zero
payload bytes, additive checksum 0. -/
def frameSeq1 : RxStream := ([SOH, 1, 0xFE] ++ List.replicate 128 0 ++ [0]).map some

/-- A valid checksum-mode frame: sequence 2 (complement byte 0xFD), 128 zero
payload bytes, additive checksum 0. -/
def frameSeq2 : RxStream := ([SOH, 2, 0xFD] ++ List.replicate 128 0 ++ [0]).map some

/-- Receive events of the size-limit scenario: two valid 128 byte frames with
sequence numbers 1 and 2. -/
def twoFrameInput : RxStream := frameSeq1 ++ frameSeq2

/-- Receive events of a complete payload frame: marker byte, sequence byte
pair, payload bytes, integrity trailer bytes, followed by later events. -/
def payloadFrame (mk s0 s1 : ℕ) (payload trailer : List ℕ)
    (rest : RxStream) : RxStream :=
  some mk :: some s0 :: some s1 :: (payload.map some ++ (trailer.map some ++ rest))

/-- A concrete mid-transfer loop state used by the witness instantiations:
negotiation over, expecting sequence 3, nine failures accumulated so far,
ample backing-store capacity. -/
def wState : LoopState :=
  { packetCounter := 3, failedAttempts := 9, useCRC := false,
    initialTransmission := false, totalBytesWritten := 0, input := [],
    buf := List.replicate 1024 1, disk := [], diskFree := 100000,
    trace := [] }

theorem set_append_cons (pre : List ℕ) (s0 v : ℕ) (suf : List ℕ) :
    (pre ++ s0 :: suf).set pre.length v = pre ++ v :: suf := by
  induction pre with
  | nil => rfl
  | cons a pre ih =>
    show a :: ((pre ++ s0 :: suf).set pre.length v) = a :: (pre ++ v :: suf)
    rw [ih]

theorem map_mod256_eq (l : List ℕ) (h : ∀ b ∈ l, b < 256) :
    (l.map fun b => b % 256) = l := by
  induction l with
  | nil => rfl
  | cons a t ih =>
    have ha : a < 256 := h a (List.mem_cons_self a t)
    have ht : ∀ b ∈ t, b < 256 := fun b hb => h b (List.mem_cons_of_mem a hb)
    simp [Nat.mod_eq_of_lt ha, ih ht]

theorem readInto_append (l : List ℕ) (rest : RxStream) (pre suf : List ℕ)
    (h : l.length ≤ suf.length) :
    readInto (l.map some ++ rest) (pre ++ suf) pre.length l.length =
      (true, rest, pre ++ (l.map fun b => b % 256) ++ suf.drop l.length) := by
  induction l generalizing pre suf with
  | nil => simp [readInto]
  | cons b bs ih =>
    cases suf with
    | nil => simp at h
    | cons s0 suf =>
      have hb : ((b :: bs).map some ++ rest) = some b :: (bs.map some ++ rest) := by
        simp
      rw [hb, show (b :: bs).length = bs.length + 1 from rfl]
      simp only [readInto, recByte, Option.map]
      rw [set_append_cons]
      have hpre : pre ++ (b % 256) :: suf = (pre ++ [b % 256]) ++ suf := by simp
      have hlen : pre.length + 1 = (pre ++ [b % 256]).length := by simp
      rw [hpre, hlen, ih _ _ (by simpa using h)]
      simp

theorem readBody_crc (s0 s1 exp hi lo pckSiz : ℕ) (payload : List ℕ)
    (rest : RxStream) (buf : List ℕ)
    (hlen : payload.length = pckSiz) (hsz : pckSiz ≤ buf.length)
    (hpay : ∀ b ∈ payload, b < 256)
    (hs0 : s0 < 256) (hs1 : s1 < 256) (hhi : hi < 256) (hlo : lo < 256) :
    readBody (some s0 :: some s1 :: (payload.map some ++ ([some hi, some lo] ++ rest)))
        buf exp true pckSiz =
      (if s0 ≠ s1 ^^^ 255 then packageResult.PCK_INVALID
       else if s0 ≠ exp then packageResult.PCK_INVALID
       else if _checkPacket true ((hi <<< 8) ||| lo) payload ≠ 0 then
         packageResult.PCK_INVALID
       else if pckSiz = PCK_SIZ then packageResult.PCK_128_RECV
       else packageResult.PCK_1K_RECV,
       rest, payload ++ buf.drop pckSiz) := by
  subst hlen
  have hri := readInto_append payload ([some hi, some lo] ++ rest) [] buf hsz
  rw [map_mod256_eq payload hpay] at hri
  simp only [List.nil_append, List.length_nil] at hri
  have h2_16 : (2 : ℕ) ^ 16 = 65536 := by norm_num
  have hhi16 : hi <<< 8 < 2 ^ 16 := by
    rw [Nat.shiftLeft_eq, h2_16, show (2 : ℕ) ^ 8 = 256 by norm_num]
    omega
  have hA : hi <<< 8 < 65536 := h2_16 ▸ hhi16
  have hor : (hi <<< 8) ||| lo < 65536 :=
    h2_16 ▸ Nat.or_lt_two_pow hhi16 (by rw [h2_16]; omega)
  simp only [readBody, recByte, Option.map, Nat.mod_eq_of_lt hs0,
    Nat.mod_eq_of_lt hs1]
  rw [hri]
  simp only [readTrailer, recByte, Option.map, List.cons_append,
    List.nil_append, Nat.mod_eq_of_lt hhi, Nat.mod_eq_of_lt hlo,
    Nat.mod_eq_of_lt hA, Nat.mod_eq_of_lt hor, List.take_left]
  by_cases h1 : s0 = s1 ^^^ 255 <;> by_cases h2 : s0 = exp <;>
    by_cases h3 : _checkPacket true ((hi <<< 8) ||| lo) payload = 0 <;>
    by_cases h4 : payload.length = PCK_SIZ <;>
    simp [h1, h2, h3, h4] <;> (try split_ifs) <;> rfl

theorem readBody_chk (s0 s1 exp t pckSiz : ℕ) (payload : List ℕ)
    (rest : RxStream) (buf : List ℕ)
    (hlen : payload.length = pckSiz) (hsz : pckSiz ≤ buf.length)
    (hpay : ∀ b ∈ payload, b < 256)
    (hs0 : s0 < 256) (hs1 : s1 < 256) (ht : t < 256) :
    readBody (some s0 :: some s1 :: (payload.map some ++ ([some t] ++ rest)))
        buf exp false pckSiz =
      (if s0 ≠ s1 ^^^ 255 then packageResult.PCK_INVALID
       else if s0 ≠ exp then packageResult.PCK_INVALID
       else if _checkPacket false t payload ≠ 0 then packageResult.PCK_INVALID
       else if pckSiz = PCK_SIZ then packageResult.PCK_128_RECV
       else packageResult.PCK_1K_RECV,
       rest, payload ++ buf.drop pckSiz) := by
  subst hlen
  have hri := readInto_append payload ([some t] ++ rest) [] buf hsz
  rw [map_mod256_eq payload hpay] at hri
  simp only [List.nil_append, List.length_nil] at hri
  simp only [readBody, recByte, Option.map, Nat.mod_eq_of_lt hs0,
    Nat.mod_eq_of_lt hs1]
  rw [hri]
  simp only [readTrailer, recByte, Option.map, List.cons_append,
    List.nil_append, Nat.mod_eq_of_lt ht, List.take_left]
  by_cases h1 : s0 = s1 ^^^ 255 <;> by_cases h2 : s0 = exp <;>
    by_cases h3 : _checkPacket false t payload = 0 <;>
    by_cases h4 : payload.length = PCK_SIZ <;>
    simp [h1, h2, h3, h4] <;> (try split_ifs) <;> rfl

/-- C1: claimed behaviour is CRC mode first (5 CRC probes, then fall back to
checksum and 5 NAK probes, 10 probe bytes total).  The code sets
useCRC = 0 (file_modem.c line 339), so from a cold start with a peer that
never replies it sends exactly 5 NAK probes, never any CRC probe, and
terminates with the negotiation-exhausted result 1 after 5 probe bytes
total.  This theorem evaluates the code at that failing input. -/
theorem C1_cold_start_probe_behavior :
    (xmodem_receive true 6 [] buf0 0 1000).map
        (fun o => (o.1, o.2.1, sentBytes o.2.2.trace)) =
      some (1, 0, List.replicate 5 NAK) := by
  decide

/-- C2 counterexample: with size limit 200 and two valid 128 byte frames,
the claim says the acknowledgement byte for the second frame is sent.  In
the code the size check (file_modem.c line 400) returns 6 before
the _sendByte(ACK) call on line 414 is reached, so only one ACK byte (the
first frame acknowledgement) is ever sent. -/
theorem C2_counterexample :
    (xmodem_receive true 5 twoFrameInput buf0 100000 200).map
        (fun o => (o.1, (sentBytes o.2.2.trace).count ACK)) =
      some (6, 1) := by
  decide

/-- C2 amended: with size limit 200 and two valid 128 byte frames, after the
second frame is persisted the running total 256 reaches the limit and the
session terminates with the size-limit result 6; the over-limit frame bytes
are already persisted (256 bytes on disk, post-write check); but the
acknowledgement byte for that second frame is never sent: the bytes sent are
exactly the initial NAK probe and the first frame acknowledgement, and no
bytes are sent after that first acknowledgement. -/
theorem C2_amended_size_limit_run :
    (xmodem_receive true 5 twoFrameInput buf0 100000 200).map
        (fun o => (o.1, sentBytes o.2.2.trace, o.2.2.disk.length)) =
      some (6, [NAK, ACK], 256) := by
  decide

/-- C3: claimed behaviour is that every terminal outcome stores the final
total of persisted bytes back through the maxsize pointer.  The direct
returns 5 and 6 in the code (file_modem.c lines 395 and 403) bypass the
assignment *p_maxsize = totalBytesWritten on line 469, so on the
size-limit exit the caller still sees the original limit 200 although
256 bytes were accepted and persisted.  This theorem evaluates the code at
that failing input. -/
theorem C3_maxsize_not_stored_on_limit_exit :
    (xmodem_receive true 5 twoFrameInput buf0 100000 200).map
        (fun o => (o.1, o.2.1, o.2.2.totalBytesWritten)) =
      some (6, 200, 256) := by
  decide

/-- C4: in CRC mode, for a fully delivered payload frame (128 or 1024 byte)
whose sequence bytes are a valid complement pair matching the expected
sequence number, the frame receiver accepts the frame exactly when the
CRC-16/XMODEM value of the payload bytes alone (as computed by _crc16)
equals the two received trailer bytes assembled big-endian (first trailer
byte is the high byte). -/
theorem C4_crc_integrity_acceptance
    (ns : Bool) (mk s0 hi lo : ℕ) (payload : List ℕ) (rest : RxStream)
    (buf : List ℕ)
    (hmk : mk = SOH ∧ payload.length = PCK_SIZ ∨
           mk = STX ∧ payload.length = PCK_1K)
    (hbuf : buf.length = 1024)
    (hpay : ∀ b ∈ payload, b < 256)
    (hs0 : s0 < 256) (hhi : hi < 256) (hlo : lo < 256) :
    ((_receivePacket ns (payloadFrame mk s0 (s0 ^^^ 255) payload [hi, lo] rest)
        buf s0 true).1 = packageResult.PCK_128_RECV ∨
     (_receivePacket ns (payloadFrame mk s0 (s0 ^^^ 255) payload [hi, lo] rest)
        buf s0 true).1 = packageResult.PCK_1K_RECV) ↔
      _crc16 payload = (hi <<< 8) ||| lo := by
  have hs1 : s0 ^^^ 255 < 256 := by
    have h := Nat.xor_lt_two_pow (x := s0) (y := 255) (n := 8)
      (by simpa using hs0) (by norm_num)
    simpa using h
  have hcompl : s0 ^^^ 255 ^^^ 255 = s0 := Nat.xor_cancel_right 255 s0
  rcases hmk with ⟨hm, hl⟩ | ⟨hm, hl⟩ <;> subst hm
  · have hrb := readBody_crc s0 (s0 ^^^ 255) s0 hi lo PCK_SIZ payload rest buf
      hl (by rw [hbuf]; norm_num [PCK_SIZ]) hpay hs0 hs1 hhi hlo
    simp only [List.cons_append, List.nil_append] at hrb
    norm_num [payloadFrame, _receivePacket, recByte, Option.map, SOH]
    rw [hrb]
    by_cases hc : _crc16 payload = (hi <<< 8) ||| lo <;>
      simp [_checkPacket, hc, hcompl]
  · have hrb := readBody_crc s0 (s0 ^^^ 255) s0 hi lo PCK_1K payload rest buf
      hl (by rw [hbuf]; norm_num [PCK_1K]) hpay hs0 hs1 hhi hlo
    simp only [List.cons_append, List.nil_append] at hrb
    norm_num [payloadFrame, _receivePacket, recByte, Option.map, SOH, STX]
    rw [hrb]
    by_cases hc : _crc16 payload = (hi <<< 8) ||| lo <;>
      simp [_checkPacket, hc, hcompl, PCK_SIZ, PCK_1K]

/-- Witness for C4: a concrete 128 byte all-zero payload in CRC mode with
trailer bytes 0x00 0x00 (the CRC-16/XMODEM of 128 zero bytes is 0). -/
theorem C4_crc_integrity_acceptance_witness :
    ((List.replicate 128 0).length = PCK_SIZ ∧ (1 : ℕ) < 256) ∧
    (((_receivePacket true
        (payloadFrame SOH 1 (1 ^^^ 255) (List.replicate 128 0) [0, 0] [])
        buf0 1 true).1 = packageResult.PCK_128_RECV ∨
      (_receivePacket true
        (payloadFrame SOH 1 (1 ^^^ 255) (List.replicate 128 0) [0, 0] [])
        buf0 1 true).1 = packageResult.PCK_1K_RECV) ↔
      _crc16 (List.replicate 128 0) = (0 <<< 8) ||| 0) :=
  ⟨⟨by decide, by decide⟩,
   C4_crc_integrity_acceptance true SOH 1 0 0 (List.replicate 128 0) [] buf0
     (Or.inl ⟨rfl, by decide⟩) (by decide) (by decide) (by decide) (by decide)
     (by decide)⟩

/-- C6: for every fully read payload frame (either size, either integrity
mode), if the two received sequence bytes are not bitwise complements of each
other the frame receiver classifies it PCK_INVALID regardless of payload and
trailer content, and if they are complements but the sequence number differs
from the expected sequence number passed in, the frame is likewise classified
PCK_INVALID. -/
theorem C6_sequence_pair_validation
    (ns : Bool) (mk s0 s1 exp : ℕ) (useCRC : Bool) (payload trailer : List ℕ)
    (rest : RxStream) (buf : List ℕ)
    (hmk : mk = SOH ∧ payload.length = PCK_SIZ ∨
           mk = STX ∧ payload.length = PCK_1K)
    (hbuf : buf.length = 1024)
    (hpay : ∀ b ∈ payload, b < 256)
    (htrb : ∀ b ∈ trailer, b < 256)
    (htr : useCRC = true ∧ trailer.length = 2 ∨
           useCRC = false ∧ trailer.length = 1)
    (hs0 : s0 < 256) (hs1 : s1 < 256) :
    (s0 ≠ s1 ^^^ 255 →
      (_receivePacket ns (payloadFrame mk s0 s1 payload trailer rest)
          buf exp useCRC).1 = packageResult.PCK_INVALID) ∧
    (s0 = s1 ^^^ 255 → s0 ≠ exp →
      (_receivePacket ns (payloadFrame mk s0 s1 payload trailer rest)
          buf exp useCRC).1 = packageResult.PCK_INVALID) := by
  rcases htr with ⟨hu, hlen2⟩ | ⟨hu, hlen2⟩ <;> subst hu
  · match trailer, hlen2 with
    | [hi, lo], _ =>
      have hhi : hi < 256 := htrb hi (by simp)
      have hlo : lo < 256 := htrb lo (by simp)
      rcases hmk with ⟨hm, hl⟩ | ⟨hm, hl⟩ <;> subst hm
      · have hrb := readBody_crc s0 s1 exp hi lo PCK_SIZ payload rest buf
          hl (by rw [hbuf]; norm_num [PCK_SIZ]) hpay hs0 hs1 hhi hlo
        simp only [List.cons_append, List.nil_append] at hrb
        norm_num [payloadFrame, _receivePacket, recByte, Option.map, SOH]
        rw [hrb]
        constructor
        · intro hne; simp [hne]
        · intro heq hne; subst heq; simp [hne]
      · have hrb := readBody_crc s0 s1 exp hi lo PCK_1K payload rest buf
          hl (by rw [hbuf]; norm_num [PCK_1K]) hpay hs0 hs1 hhi hlo
        simp only [List.cons_append, List.nil_append] at hrb
        norm_num [payloadFrame, _receivePacket, recByte, Option.map, SOH, STX]
        rw [hrb]
        constructor
        · intro hne; simp [hne]
        · intro heq hne; subst heq; simp [hne]
  · match trailer, hlen2 with
    | [t], _ =>
      have ht : t < 256 := htrb t (by simp)
      rcases hmk with ⟨hm, hl⟩ | ⟨hm, hl⟩ <;> subst hm
      · have hrb := readBody_chk s0 s1 exp t PCK_SIZ payload rest buf
          hl (by rw [hbuf]; norm_num [PCK_SIZ]) hpay hs0 hs1 ht
        simp only [List.cons_append, List.nil_append] at hrb
        norm_num [payloadFrame, _receivePacket, recByte, Option.map, SOH]
        rw [hrb]
        constructor
        · intro hne; simp [hne]
        · intro heq hne; subst heq; simp [hne]
      · have hrb := readBody_chk s0 s1 exp t PCK_1K payload rest buf
          hl (by rw [hbuf]; norm_num [PCK_1K]) hpay hs0 hs1 ht
        simp only [List.cons_append, List.nil_append] at hrb
        norm_num [payloadFrame, _receivePacket, recByte, Option.map, SOH, STX]
        rw [hrb]
        constructor
        · intro hne; simp [hne]
        · intro heq hne; subst heq; simp [hne]

/-- Witness for C6: sequence byte 1 with non-complement second byte 7 is
rejected; a valid complement pair 2 / 253 with expected sequence 1 is also
rejected (checksum mode, 128 byte all-zero payload). -/
theorem C6_sequence_pair_validation_witness :
    ((1 : ℕ) ≠ 7 ^^^ 255 ∧
      (_receivePacket true (payloadFrame SOH 1 7 (List.replicate 128 0) [0] [])
          buf0 1 false).1 = packageResult.PCK_INVALID) ∧
    ((2 : ℕ) = 253 ^^^ 255 ∧ (2 : ℕ) ≠ 1 ∧
      (_receivePacket true (payloadFrame SOH 2 253 (List.replicate 128 0) [0] [])
          buf0 1 false).1 = packageResult.PCK_INVALID) :=
  ⟨⟨by decide,
    (C6_sequence_pair_validation true SOH 1 7 1 false (List.replicate 128 0)
        [0] [] buf0 (Or.inl ⟨rfl, by decide⟩) (by decide) (by decide)
        (by decide) (Or.inr ⟨rfl, by decide⟩) (by decide) (by decide)).1
      (by decide)⟩,
   ⟨by decide, by decide,
    (C6_sequence_pair_validation true SOH 2 253 1 false (List.replicate 128 0)
        [0] [] buf0 (Or.inl ⟨rfl, by decide⟩) (by decide) (by decide)
        (by decide) (Or.inr ⟨rfl, by decide⟩) (by decide) (by decide)).2
      (by decide) (by decide)⟩⟩

/-- C7: with the non-standard markers compiled in, a first byte equal to the
cancel marker 0x18 or to either abort marker 0x41 or 0x61 makes the frame
receiver return PCK_CANCEL immediately, consuming no further receive events
and leaving the buffer untouched; and when such a byte is the very first
exchange of a session, the transfer loop flushes the receive buffer and
terminates with the aborted-by-peer result 3 and a reported byte count 0
(the full action trace being entry flush, the initial NAK probe, and the
final flush). -/
theorem C7_cancel_markers :
    (∀ (b : ℕ) (rest : RxStream) (buf : List ℕ) (exp : ℕ) (useCRC : Bool),
      b = CAN ∨ b = ABORT1 ∨ b = ABORT2 →
      _receivePacket true (some b :: rest) buf exp useCRC =
        (packageResult.PCK_CANCEL, rest, buf)) ∧
    (xmodem_receive true 3 [some CAN] buf0 0 1000).map
        (fun o => (o.1, o.2.1, o.2.2.trace)) =
      some (3, 0, [Action.flush, Action.send NAK, Action.flush]) := by
  constructor
  · intro b rest buf exp useCRC hb
    rcases hb with hb | hb | hb <;> subst hb <;>
      norm_num [_receivePacket, recByte, Option.map, CAN, ABORT1, ABORT2,
        SOH, STX, EOT]
  · decide

/-- Witness for C7: the standard cancel marker 0x18 as first byte of a frame
is classified PCK_CANCEL without reading further. -/
theorem C7_cancel_markers_witness :
    (CAN = CAN ∨ CAN = ABORT1 ∨ CAN = ABORT2) ∧
    _receivePacket true [some CAN] buf0 5 false =
      (packageResult.PCK_CANCEL, [], buf0) :=
  ⟨Or.inl rfl, C7_cancel_markers.1 CAN [] buf0 5 false (Or.inl rfl)⟩

/-- C10: receiving a fully delivered 128 byte frame into the 1024 byte
scratch buffer overwrites exactly indices 0 through 127 with the payload
bytes and leaves indices 128 through 1023 holding their previous contents
(the resulting buffer is the payload followed by the old tail); and for an
accepted 128 byte frame with enough backing-store capacity the transfer loop
appends exactly the first 128 bytes of the buffer to the backing store. -/
theorem C10_small_frame_buffer_effect :
    (∀ (ns : Bool) (s0 s1 exp : ℕ) (useCRC : Bool)
        (payload trailer : List ℕ) (rest : RxStream) (buf : List ℕ),
      payload.length = PCK_SIZ → buf.length = 1024 →
      (∀ b ∈ payload, b < 256) → (∀ b ∈ trailer, b < 256) →
      (useCRC = true ∧ trailer.length = 2 ∨
       useCRC = false ∧ trailer.length = 1) →
      s0 < 256 → s1 < 256 →
      (_receivePacket ns (payloadFrame SOH s0 s1 payload trailer rest)
          buf exp useCRC).2.2 = payload ++ buf.drop 128) ∧
    (∀ (m : ℕ) (s : LoopState), PCK_SIZ ≤ s.diskFree →
      ((processResult m packageResult.PCK_128_RECV s).state).disk =
        s.disk ++ s.buf.take 128) := by
  constructor
  · intro ns s0 s1 exp useCRC payload trailer rest buf hl hbuf hpay htrb htr
      hs0 hs1
    rcases htr with ⟨hu, hlen2⟩ | ⟨hu, hlen2⟩ <;> subst hu
    · match trailer, hlen2 with
      | [hi, lo], _ =>
        have hhi : hi < 256 := htrb hi (by simp)
        have hlo : lo < 256 := htrb lo (by simp)
        have hrb := readBody_crc s0 s1 exp hi lo PCK_SIZ payload rest buf
          hl (by rw [hbuf]; norm_num [PCK_SIZ]) hpay hs0 hs1 hhi hlo
        simp only [List.cons_append, List.nil_append] at hrb
        norm_num [payloadFrame, _receivePacket, recByte, Option.map, SOH]
        rw [hrb]
        simp [PCK_SIZ]
    · match trailer, hlen2 with
      | [t], _ =>
        have ht : t < 256 := htrb t (by simp)
        have hrb := readBody_chk s0 s1 exp t PCK_SIZ payload rest buf
          hl (by rw [hbuf]; norm_num [PCK_SIZ]) hpay hs0 hs1 ht
        simp only [List.cons_append, List.nil_append] at hrb
        norm_num [payloadFrame, _receivePacket, recByte, Option.map, SOH]
        rw [hrb]
        simp [PCK_SIZ]
  · intro m s h
    have hmin : min PCK_SIZ s.diskFree = PCK_SIZ := min_eq_left h
    simp only [processResult, acceptPacket, hmin]
    split_ifs <;> simp [StepOut.state, PCK_SIZ]

/-- Witness for C10: a concrete frame with payload bytes all 7 received over
a buffer holding all 1 bytes, and the loop appending the first 128 buffer
bytes for an accepted small frame in the concrete state wState. -/
theorem C10_small_frame_buffer_effect_witness :
    ((List.replicate 128 7).length = PCK_SIZ ∧
      (_receivePacket true
          (payloadFrame SOH 1 254 (List.replicate 128 7) [124] [])
          (List.replicate 1024 1) 1 false).2.2 =
        List.replicate 128 7 ++ (List.replicate 1024 1).drop 128) ∧
    (PCK_SIZ ≤ wState.diskFree ∧
      ((processResult 0 packageResult.PCK_128_RECV wState).state).disk =
        wState.disk ++ wState.buf.take 128) :=
  ⟨⟨by decide,
    (C10_small_frame_buffer_effect.1 true 1 254 1 false (List.replicate 128 7)
        [124] [] (List.replicate 1024 1) (by decide) (by decide) (by decide)
        (by decide) (Or.inr ⟨rfl, by decide⟩) (by decide) (by decide))⟩,
   ⟨by decide,
    C10_small_frame_buffer_effect.2 0 wState (by decide)⟩⟩

theorem foldl_checksumByte (l : List ℕ) :
    ∀ a : ℕ, l.foldl checksumByte (a % 256) = (a + l.sum) % 256 := by
  induction l with
  | nil => intro a; simp
  | cons b t ih =>
    intro a
    show t.foldl checksumByte (checksumByte (a % 256) b) = _
    rw [checksumByte, Nat.mod_add_mod, ih (a + b)]
    simp [Nat.add_assoc]

theorem checksum8_eq_sum (l : List ℕ) : checksum8 l = l.sum % 256 := by
  have h := foldl_checksumByte l 0
  simpa [checksum8] using h

/-- C8: the additive 8 bit checksum is invariant under any permutation of the
payload bytes, and hence the checksum-mode integrity verdict of _checkPacket
is the same for a payload and any reordering of its bytes, for every trailer
value. -/
theorem C8_checksum_permutation_invariance
    (l lp : List ℕ) (t : ℕ) (h : l.Perm lp) :
    checksum8 l = checksum8 lp ∧
    _checkPacket false t l = _checkPacket false t lp := by
  have hs : checksum8 l = checksum8 lp := by
    rw [checksum8_eq_sum, checksum8_eq_sum, h.sum_eq]
  exact ⟨hs, by simp [_checkPacket, hs]⟩

/-- Witness for C8: a concrete payload and a reordering of it, checked with
trailer byte 0. -/
theorem C8_checksum_permutation_invariance_witness :
    ([1, 2, 3, 250] : List ℕ).Perm [250, 3, 1, 2] ∧
    (checksum8 [1, 2, 3, 250] = checksum8 [250, 3, 1, 2] ∧
     _checkPacket false 0 [1, 2, 3, 250] = _checkPacket false 0 [250, 3, 1, 2]) :=
  ⟨by decide, C8_checksum_permutation_invariance [1, 2, 3, 250] [250, 3, 1, 2] 0
    (by decide)⟩

theorem runStep_silent (ns : Bool) (m : ℕ) (s : LoopState)
    (hinit : s.initialTransmission = false) (hinp : s.input = []) :
    runStep ns m s = failPacket s := by
  cases s with
  | mk pc fa uc it tb inp bf dsk df tr =>
    obtain rfl : it = false := hinit
    obtain rfl : inp = [] := hinp
    rfl

theorem silent_exhaust (ns : Bool) (m : ℕ) :
    ∀ (k fuel : ℕ) (s : LoopState),
      s.initialTransmission = false → s.input = [] →
      s.failedAttempts + k = 9 →
      (xmodemLoop ns m (fuel + (k + 1)) s).map (fun o => (o.1, o.2.1)) =
        some (2, s.totalBytesWritten) := by
  intro k
  induction k with
  | zero =>
    intro fuel s hinit hinp hfail
    have h9 : s.failedAttempts = 9 := by omega
    rw [show fuel + (0 + 1) = fuel + 1 by omega]
    rw [xmodemLoop, runStep_silent ns m s hinit hinp]
    simp [failPacket, hinit, h9, MAX_ERR]
  | succ k ih =>
    intro fuel s hinit hinp hfail
    have hle : s.failedAttempts + 1 ≤ 9 := by omega
    have hmod : (s.failedAttempts + 1) % 256 = s.failedAttempts + 1 :=
      Nat.mod_eq_of_lt (by omega)
    rw [show fuel + (k + 1 + 1) = (fuel + (k + 1)) + 1 by omega]
    rw [xmodemLoop, runStep_silent ns m s hinit hinp]
    simp only [failPacket, hinit, Bool.false_eq_true, if_false, hmod,
      MAX_ERR, SRT_TRY]
    rw [if_neg (by omega : ¬ 10 ≤ s.failedAttempts + 1)]
    exact ih fuel _ rfl hinp (by show s.failedAttempts + 1 + k = 9; omega)

/-- C5: once negotiation is complete, (a) a Timeout or Malformed result with
nine prior consecutive failures (the tenth in a row) terminates the loop with
the retries-exhausted result 2, after sending the final NAK the code emits
on that path; (b) any accepted payload frame resets the consecutive-failure
counter to 0 in every branch; (c) a failure below the threshold of 10 sends
the negative-acknowledgement byte and continues the loop with the same
expected sequence number (only the failure counter and the action trace of
the state change); (d) iterated form: from a state with negotiation complete,
counter 0 and a peer that never replies, 10 consecutive timeouts terminate
the session with result 2. -/
theorem C5_steady_state_retry :
    (∀ (m : ℕ) (s : LoopState) (res : packageResult),
      s.initialTransmission = false →
      (res = packageResult.PCK_TIMEOUT ∨ res = packageResult.PCK_INVALID) →
      s.failedAttempts = 9 →
      processResult m res s =
        .exit 2 s.totalBytesWritten
          { s with failedAttempts := 10,
                   trace := (s.trace ++ [.flush]) ++ [.send NAK] }) ∧
    (∀ (m : ℕ) (s : LoopState) (res : packageResult),
      (res = packageResult.PCK_128_RECV ∨ res = packageResult.PCK_1K_RECV) →
      ((processResult m res s).state).failedAttempts = 0) ∧
    (∀ (m : ℕ) (s : LoopState) (res : packageResult),
      s.initialTransmission = false →
      (res = packageResult.PCK_TIMEOUT ∨ res = packageResult.PCK_INVALID) →
      s.failedAttempts + 1 < 10 →
      processResult m res s =
        .next { s with failedAttempts := s.failedAttempts + 1,
                       trace := (s.trace ++ [.flush]) ++ [.send NAK] }) ∧
    (∀ (ns : Bool) (m fuel : ℕ) (s : LoopState),
      s.initialTransmission = false → s.input = [] → s.failedAttempts = 0 →
      (xmodemLoop ns m (fuel + 10) s).map (fun o => (o.1, o.2.1)) =
        some (2, s.totalBytesWritten)) := by
  refine ⟨?_, ?_, ?_, ?_⟩
  · intro m s res hinit hres hfail
    rcases hres with h | h <;> subst h <;>
      simp [processResult, failPacket, hinit, hfail, MAX_ERR]
  · intro m s res hres
    rcases hres with h | h <;> subst h <;>
      simp only [processResult, acceptPacket] <;>
      split_ifs <;> simp [StepOut.state]
  · intro m s res hinit hres hfail
    have hmod : (s.failedAttempts + 1) % 256 = s.failedAttempts + 1 :=
      Nat.mod_eq_of_lt (by omega)
    rcases hres with h | h <;> subst h <;>
      (simp only [processResult, failPacket, hinit, Bool.false_eq_true,
        if_false, hmod, MAX_ERR, SRT_TRY]
       rw [if_neg (by omega : ¬ 10 ≤ s.failedAttempts + 1)])
  · intro ns m fuel s hinit hinp hfail
    have h := silent_exhaust ns m 9 fuel s hinit hinp (by omega)
    simpa using h

/-- Witness for C5: its four parts instantiated at the concrete state wState
(nine failures accumulated, negotiation over) and variants of it. -/
theorem C5_steady_state_retry_witness :
    (wState.initialTransmission = false ∧ wState.failedAttempts = 9) ∧
    processResult 0 packageResult.PCK_TIMEOUT wState =
      .exit 2 wState.totalBytesWritten
        { wState with failedAttempts := 10,
                      trace := (wState.trace ++ [.flush]) ++ [.send NAK] } ∧
    ((processResult 0 packageResult.PCK_128_RECV wState).state).failedAttempts
      = 0 ∧
    processResult 0 packageResult.PCK_INVALID
        { wState with failedAttempts := 4 } =
      .next { { wState with failedAttempts := 4 } with
              failedAttempts := 4 + 1,
              trace := ({ wState with failedAttempts := 4 }.trace ++ [.flush])
                         ++ [.send NAK] } ∧
    (xmodemLoop true 0 (0 + 10) { wState with failedAttempts := 0 }).map
        (fun o => (o.1, o.2.1)) =
      some (2, { wState with failedAttempts := 0 }.totalBytesWritten) :=
  ⟨⟨by decide, by decide⟩,
   C5_steady_state_retry.1 0 wState packageResult.PCK_TIMEOUT (by decide)
     (Or.inl rfl) (by decide),
   C5_steady_state_retry.2.1 0 wState packageResult.PCK_128_RECV (Or.inl rfl),
   C5_steady_state_retry.2.2.1 0 { wState with failedAttempts := 4 }
     packageResult.PCK_INVALID (by decide) (Or.inr rfl) (by decide),
   C5_steady_state_retry.2.2.2 true 0 0 { wState with failedAttempts := 0 }
     (by decide) (by decide) (by decide)⟩

theorem processResult_exit_zero (m : ℕ) (res : packageResult)
    (t s2 : LoopState) (rep : ℕ)
    (h : processResult m res t = .exit 0 rep s2) :
    rep = t.totalBytesWritten := by
  cases res with
  | PCK_128_RECV =>
    simp only [processResult, acceptPacket] at h
    split_ifs at h <;> simp_all
  | PCK_1K_RECV =>
    simp only [processResult, acceptPacket] at h
    split_ifs at h <;> simp_all
  | PCK_EOT =>
    simp only [processResult] at h
    injection h with h1 h2 h3
    exact h2.symm
  | PCK_TIMEOUT =>
    simp only [processResult, failPacket] at h
    split_ifs at h <;> simp_all
  | PCK_INVALID =>
    simp only [processResult, failPacket] at h
    split_ifs at h <;> simp_all
  | PCK_CANCEL => simp [processResult] at h

theorem processResult_next_inv (m : ℕ) (res : packageResult)
    (t s2 : LoopState) (h : processResult m res t = .next s2)
    (hinv : t.totalBytesWritten < m ∨ t.totalBytesWritten = 0) :
    s2.totalBytesWritten < m ∨ s2.totalBytesWritten = 0 := by
  cases res with
  | PCK_128_RECV =>
    simp only [processResult, acceptPacket] at h
    split_ifs at h with h1 h2
    injection h with h3
    subst h3
    refine Or.inl ?_
    show (t.totalBytesWritten + PCK_SIZ) % 4294967296 < m
    have h2a : ¬ m ≤ (t.totalBytesWritten + PCK_SIZ) % 4294967296 := h2
    omega
  | PCK_1K_RECV =>
    simp only [processResult, acceptPacket] at h
    split_ifs at h with h1 h2
    injection h with h3
    subst h3
    refine Or.inl ?_
    show (t.totalBytesWritten + PCK_1K) % 4294967296 < m
    have h2a : ¬ m ≤ (t.totalBytesWritten + PCK_1K) % 4294967296 := h2
    omega
  | PCK_EOT => simp [processResult] at h
  | PCK_TIMEOUT =>
    simp only [processResult, failPacket] at h
    split_ifs at h <;> (injection h with h3; subst h3; exact hinv)
  | PCK_INVALID =>
    simp only [processResult, failPacket] at h
    split_ifs at h <;> (injection h with h3; subst h3; exact hinv)
  | PCK_CANCEL => simp [processResult] at h

theorem runStep_exit_zero (ns : Bool) (m : ℕ) (s : LoopState) (rep : ℕ)
    (s2 : LoopState) (h : runStep ns m s = .exit 0 rep s2) :
    rep = s.totalBytesWritten := by
  by_cases hI : s.initialTransmission = true <;>
    simp only [runStep, hI, if_true, Bool.false_eq_true, if_false] at h
  all_goals (have hz := processResult_exit_zero _ _ _ _ _ h; exact hz)

theorem runStep_next_inv (ns : Bool) (m : ℕ) (s s2 : LoopState)
    (h : runStep ns m s = .next s2)
    (hinv : s.totalBytesWritten < m ∨ s.totalBytesWritten = 0) :
    s2.totalBytesWritten < m ∨ s2.totalBytesWritten = 0 := by
  by_cases hI : s.initialTransmission = true <;>
    simp only [runStep, hI, if_true, Bool.false_eq_true, if_false] at h
  all_goals (have hz := processResult_next_inv _ _ _ _ h hinv; exact hz)

theorem loop_completed_le (ns : Bool) (m : ℕ) :
    ∀ (fuel : ℕ) (s : LoopState),
      (s.totalBytesWritten < m ∨ s.totalBytesWritten = 0) →
      ∀ r : ℕ,
        (xmodemLoop ns m fuel s).map (fun o => (o.1, o.2.1)) = some (0, r) →
        r ≤ m := by
  intro fuel
  induction fuel with
  | zero => intro s hinv r h; simp [xmodemLoop] at h
  | succ n ih =>
    intro s hinv r h
    rw [xmodemLoop] at h
    cases hrs : runStep ns m s with
    | exit rc rep s3 =>
      rw [hrs] at h
      simp only [Option.map] at h
      have h1 : rc = 0 ∧ rep = r := by simpa using h
      obtain ⟨h0, hr⟩ := h1
      subst h0
      have hz := runStep_exit_zero ns m s rep s3 hrs
      rcases hinv with hlt | h0t <;> omega
    | next s3 =>
      rw [hrs] at h
      exact ih s3 (runStep_next_inv ns m s s3 hrs hinv) r h

/-- C9: whenever the transfer loop terminates with the completed result 0,
the reported total of accepted bytes does not exceed the caller supplied
size limit; and at the frame level, an accepted payload frame whose
persisted bytes bring the running total up to or past the limit makes the
loop exit at once with the size-limit result 6, before any further frame is
processed. -/
theorem C9_completed_within_limit :
    (∀ (ns : Bool) (fuel : ℕ) (input : RxStream) (buf : List ℕ)
        (diskFree m r : ℕ),
      (xmodem_receive ns fuel input buf diskFree m).map
          (fun o => (o.1, o.2.1)) = some (0, r) →
      r ≤ m) ∧
    (∀ (m : ℕ) (s : LoopState) (res : packageResult),
      (res = packageResult.PCK_128_RECV ∨ res = packageResult.PCK_1K_RECV) →
      (if res = packageResult.PCK_1K_RECV then PCK_1K else PCK_SIZ) ≤
        s.diskFree →
      s.totalBytesWritten +
          (if res = packageResult.PCK_1K_RECV then PCK_1K else PCK_SIZ) <
        4294967296 →
      m ≤ s.totalBytesWritten +
          (if res = packageResult.PCK_1K_RECV then PCK_1K else PCK_SIZ) →
      (processResult m res s).code = some 6) := by
  constructor
  · intro ns fuel input buf diskFree m r h
    exact loop_completed_le ns m fuel (initState input buf diskFree)
      (Or.inr rfl) r h
  · intro m s res hres hdisk h32 hm
    rcases hres with h | h <;> subst h <;> simp at hdisk h32 hm <;>
      simp [processResult, acceptPacket, StepOut.code, min_eq_left hdisk,
        Nat.mod_eq_of_lt h32, hm]

/-- Witness for C9: a session that receives only an end-of-transmission
frame completes with 0 bytes under limit 5, and a concrete accepted 128 byte
frame in state wState with limit 50 exits with the size-limit result 6. -/
theorem C9_completed_within_limit_witness :
    ((xmodem_receive true 2 [some EOT] buf0 0 5).map
        (fun o => (o.1, o.2.1)) = some (0, 0) ∧ (0 : ℕ) ≤ 5) ∧
    (PCK_SIZ ≤ wState.diskFree ∧
      (processResult 50 packageResult.PCK_128_RECV wState).code = some 6) :=
  ⟨⟨by decide,
    C9_completed_within_limit.1 true 2 [some EOT] buf0 0 5 0 (by decide)⟩,
   ⟨by decide,
    C9_completed_within_limit.2 50 wState packageResult.PCK_128_RECV
      (Or.inl rfl) (by decide) (by decide) (by decide)⟩⟩

end FileModem
